import Mathlib

set_option maxHeartbeats 1000000

/-!
Verification development for the PhilSA GeoSafe landslide-risk notebook tools.

The Python sources are shallowly embedded:
* Python strings are Lean `String` (a wrapper around `List Char`);
  `str.splitlines(keepends=True)` and `"".join` are modelled character by
  character, including the two-character `"\r\n"` line break.
* A notebook cell's `source` field is either a single string or a list of
  line strings (`Source`); cells and notebooks are records.
* `modify_nb.main` reads, patches and rewrites one notebook; the file I/O
  round-trip is modelled as the pure document transformation `main`, with
  `Option` capturing the uncaught `IndexError` on a structurally
  unexpected document (fewer than 8 cells).
* Python `list.insert` (which clamps an out-of-range index to an append)
  is `pyInsert`; `next((i for i, x in enumerate(l) if p x), None)` is
  `firstIdx?`.
-/

namespace GeoSafe

/-- The line-break characters recognised by Python `str.splitlines`. -/
def isLineBreak (c : Char) : Bool :=
  c = '\n' || c = '\r' || c = '\u000B' || c = '\u000C' ||
  c = '\u001C' || c = '\u001D' || c = '\u001E' ||
  c = '\u0085' || c = '\u2028' || c = '\u2029'

/-- Prepend a character to the first line of a split result. -/
def consLine (c : Char) : List (List Char) → List (List Char)
  | [] => [[c]]
  | l :: ls => (c :: l) :: ls

/-- Python `str.splitlines(keepends=True)` on the underlying character list:
cut after every line break, treating `"\r\n"` as a single break, and keep the
break characters in the produced lines. -/
def splitlinesKeepends : List Char → List (List Char)
  | [] => []
  | [c] => [[c]]
  | c :: d :: rest =>
    if c = '\r' ∧ d = '\n' then ('\r' :: '\n' :: []) :: splitlinesKeepends rest
    else if isLineBreak c then [c] :: splitlinesKeepends (d :: rest)
    else consLine c (splitlinesKeepends (d :: rest))

/-- Python `"".join(lines)`. -/
def joinStr (ls : List String) : String := String.mk (ls.map String.data).flatten

/-- Python `s.splitlines(keepends=True)`. -/
def splitlines (s : String) : List String := (splitlinesKeepends s.data).map String.mk

/-- `needle` occurs as a contiguous run inside the second list. -/
def listContains (needle : List Char) : List Char → Bool
  | [] => needle.isEmpty
  | c :: rest => needle.isPrefixOf (c :: rest) || listContains needle rest

/-- Python substring membership `needle in line`. -/
def pyIn (needle line : String) : Bool := listContains needle.data line.data

/-- Python `line.startswith(pre)`. -/
def startswith (line pre : String) : Bool := pre.data.isPrefixOf line.data

/-- A cell's `source` field: a single string or a list of line strings. -/
inductive Source where
  | str (s : String)
  | list (lines : List String)
deriving DecidableEq

/-- A notebook cell.  `metadata` is an uninterpreted association list; markdown
cells carry `none` for `outputs` and `execution_count`, code cells carry
`some []` and `some none` (Python `[]` and `None`). -/
structure Cell where
  cell_type : String
  metadata : List (String × String)
  source : Source
  outputs : Option (List String)
  execution_count : Option (Option Nat)
deriving DecidableEq

/-- A notebook document: ordered cells plus a metadata record, carried
verbatim. -/
structure Notebook where
  cells : List Cell
  metadata : List (String × String)
deriving DecidableEq

/-- `modify_nb.ensure_list_source`. -/
def ensure_list_source (cell : Cell) : List String × Bool :=
  match cell.source with
  | .list lines => (lines, true)
  | .str s => (splitlines s, false)

/-- `modify_nb.assign_source`. -/
def assign_source (cell : Cell) (lines : List String) (was_list : Bool) : Cell :=
  if was_list then { cell with source := .list lines }
  else { cell with source := .str (joinStr lines) }

/-- The 17-line soil-moisture block inserted into cell 5 (`modify_nb.py`
lines 30-48). -/
def block : List String := [
  "soil_moisture_layer = None\n",
  "try:\n",
  "    soil_moisture_dataset = 'NASA_USDA/HSL/SMAP10KM_soil_moisture'\n",
  "    soil_moisture_collection = (\n",
  "        ee.ImageCollection(soil_moisture_dataset)\n",
  "        .filterDate(start_date_recent, end_date_recent)\n",
  "        .filterBounds(roi)\n",
  "    )\n",
  "    soil_moisture_count = soil_moisture_collection.size().getInfo() or 0\n",
  "    if soil_moisture_count > 0:\n",
  "        soil_moisture_layer = soil_moisture_collection.select('ssm').mean().clip(roi)\n",
  "        print(f'Soil moisture images used: \x7bsoil_moisture_count\x7d')\n",
  "    else:\n",
  "        print('No soil moisture data available for the selected period.')\n",
  "except Exception as exc:\n",
  "    soil_moisture_layer = None\n",
  "    print(f'Soil moisture layer unavailable: \x7bexc\x7d')\n"]

/-- The padding-and-extend applied to the cell-5 line list (`modify_nb.py`
lines 49-51): ensure a trailing `"\n"` element, then extend with `["\n"]`
followed by `block`. -/
def extendLines5 (lines5 : List String) : List String :=
  (if lines5 ≠ [] ∧ lines5.getLast? ≠ some "\n" then lines5 ++ ["\n"] else lines5)
    ++ "\n" :: block

/-- The transformation `main` applies to cell 5's line list
(`modify_nb.py` lines 29-51): append the block unless the
`"soil_moisture_layer"` marker is already present. -/
def patchLines5 (lines5 : List String) : List String :=
  if !(lines5.any (fun line => pyIn "soil_moisture_layer" line)) then extendLines5 lines5
  else lines5

/-- The cell-5 part of `modify_nb.main` (lines 26-52): the source is only
reassigned when the marker was absent. -/
def patchCell5 (cell5 : Cell) : Cell :=
  let r := ensure_list_source cell5
  if !(r.1.any (fun line => pyIn "soil_moisture_layer" line)) then
    assign_source cell5 (extendLines5 r.1) r.2
  else cell5

/-- The soil-moisture visualization literal inserted into cell 7
(`modify_nb.py` line 67). -/
def smVizLine : String :=
  "soil_moisture_viz = \x7b'min': 0.0, 'max': 0.6, 'palette': ['#f7fcf5', '#74c476', '#00441b']\x7d\n"

/-- The slope visualization literal inserted into cell 7 (line 79). -/
def slopeVizLine : String :=
  "slope_viz = \x7b'min': 0, 'max': 45, 'palette': ['#ffffcc', '#fd8d3c', '#800026']\x7d\n"

/-- The three map-layer lines inserted before the risk-hotspots anchor
(`modify_nb.py` lines 88-92). -/
def additions : List String := [
  "if soil_moisture_layer is not None:\n",
  "    m.add_layer(soil_moisture_layer, soil_moisture_viz, 'Soil Moisture (SMAP)')\n",
  "m.add_layer(slope.clip(roi), slope_viz, 'Slope (degrees)')\n"]

/-- The slope layer line inserted by the `elif` branch (line 101). -/
def slopeDegreesLine : String :=
  "m.add_layer(slope.clip(roi), slope_viz, 'Slope (degrees)')\n"

/-- Python `list.insert(i, x)`: insert before position `i`, appending when
`i` exceeds the length. -/
def pyInsert : List String → Nat → String → List String
  | xs, 0, a => a :: xs
  | [], _ + 1, a => [a]
  | x :: xs, n + 1, a => x :: pyInsert xs n a

/-- Python `next((i for i, line in enumerate(lines) if p line), None)`:
index of the first line satisfying `p`. -/
def firstIdx? (p : String → Bool) : List String → Option Nat
  | [] => none
  | x :: xs => if p x then some 0 else (firstIdx? p xs).map (fun i => i + 1)

/-- The loop `for offset, new_line in enumerate(additions):
lines7.insert(idx + offset, new_line)` (`modify_nb.py` lines 93-94). -/
def insertAll : List String → Nat → List String → List String
  | lines, _, [] => lines
  | lines, i, a :: rest => insertAll (pyInsert lines i a) (i + 1) rest

/-- Cell-7 step one (`modify_nb.py` lines 58-69): insert the soil-moisture
visualization line after the first `change_viz` line, returning the
`viz_inserted` flag. -/
def step1 (lines7 : List String) : List String × Bool :=
  if !(lines7.any (fun line => pyIn "soil_moisture_viz" line)) then
    match firstIdx? (fun line => startswith line "change_viz") lines7 with
    | some idx => (pyInsert lines7 (idx + 1) smVizLine, true)
    | none => (lines7, false)
  else (lines7, false)

/-- Cell-7 step two (lines 70-80): insert the slope visualization line after
the first `change_viz` line, one position further if step one inserted. -/
def step2 (lines7 : List String) (viz_inserted : Bool) : List String :=
  if !(lines7.any (fun line => pyIn "slope_viz" line)) then
    match firstIdx? (fun line => startswith line "change_viz") lines7 with
    | some idx => pyInsert lines7 (idx + (if viz_inserted then 2 else 1)) slopeVizLine
    | none => lines7
  else lines7

/-- Cell-7 step three (lines 82-101): insert the three layer lines before the
first `m.add_layer(risk_hotspots` line, or just the slope layer line in the
`elif` branch. -/
def step3 (lines7 : List String) : List String :=
  if !(lines7.any (fun line => pyIn "Soil Moisture (SMAP)" line)) then
    match firstIdx? (fun line => pyIn "m.add_layer(risk_hotspots" line) lines7 with
    | some idx => insertAll lines7 idx additions
    | none => lines7
  else if !(lines7.any (fun line => pyIn "Slope (degrees)" line)) then
    match firstIdx? (fun line => pyIn "m.add_layer(risk_hotspots" line) lines7 with
    | some idx => pyInsert lines7 idx slopeDegreesLine
    | none => lines7
  else lines7

/-- The transformation `main` applies to cell 7's line list (lines 58-101). -/
def patchLines7 (lines7 : List String) : List String :=
  let p := step1 lines7
  step3 (step2 p.1 p.2)

/-- The cell-7 part of `modify_nb.main` (lines 55-103): the source is
reassigned unconditionally. -/
def patchCell7 (cell7 : Cell) : Cell :=
  let r := ensure_list_source cell7
  assign_source cell7 (patchLines7 r.1) r.2

/-- `modify_nb.main` as a document transformation.  `none` models the
uncaught `IndexError` raised by `nb["cells"][5]` / `nb["cells"][7]` on a
notebook with too few cells; the file read/write round-trip is the identity
on the document. -/
def main (nb : Notebook) : Option Notebook :=
  match nb.cells[5]? with
  | none => none
  | some cell5 =>
    let nb1 := { nb with cells := nb.cells.set 5 (patchCell5 cell5) }
    match nb1.cells[7]? with
    | none => none
    | some cell7 => some { nb1 with cells := nb1.cells.set 7 (patchCell7 cell7) }

/-- `true` when cell `i` exists and some line of its normalized source
contains `marker`. -/
def cellHasMarker (nb : Notebook) (i : Nat) (marker : String) : Bool :=
  match nb.cells[i]? with
  | some c => (ensure_list_source c).1.any (fun line => pyIn marker line)
  | none => false

/-- All idempotency markers the patcher checks are present in the patched
cells: the state left behind by a first run in which every needed insertion
succeeded. -/
def markersPresent (nb : Notebook) : Bool :=
  cellHasMarker nb 5 "soil_moisture_layer" &&
  cellHasMarker nb 7 "soil_moisture_viz" &&
  cellHasMarker nb 7 "slope_viz" &&
  cellHasMarker nb 7 "Soil Moisture (SMAP)" &&
  cellHasMarker nb 7 "Slope (degrees)"

/-- The concatenated textual content of a source value. -/
def sourceText : Source → String
  | .str s => s
  | .list ls => joinStr ls

/-- Whether a source value uses the line-sequence representation. -/
def isListSource : Source → Bool
  | .str _ => false
  | .list _ => true

/-- `notebook_builder.markdown_cell`. -/
def markdown_cell (text : String) : Cell :=
  { cell_type := "markdown", metadata := [], source := .list [text],
    outputs := none, execution_count := none }

/-- `notebook_builder.code_cell`. -/
def code_cell (lines : List String) : Cell :=
  { cell_type := "code", metadata := [],
    source := .list (lines.map (fun line => line ++ "\n")),
    outputs := some [], execution_count := some none }

/-- `notebook_builder.cells`: the cell list of the first generated notebook
(`GeoSafeMonitor.ipynb`), assembled by the eight `cells.append` calls of
`notebook_builder.py` lines 23-224. -/
def cells : List Cell := [
  markdown_cell
    ("# Geo-Safe Monitor PH: Landslide Risk POC\n\n" ++
     "This notebook mirrors the prototype workflow for monitoring vegetation change over Baungon, " ++
     "Bukidnon using Sentinel-2 imagery. It incorporates the fixes highlighted in the earlier code review, " ++
     "including reliable dependency handling, historical data availability checks, and explicit map rendering.\n"),
  code_cell [
    "import importlib.util",
    "import subprocess",
    "import sys",
    "",
    "DEPENDENCIES = \x7b",
    "    'ee': 'earthengine-api',",
    "    'geemap': 'geemap',",
    "    'pandas': 'pandas',",
    "    'matplotlib': 'matplotlib',",
    "\x7d",
    "",
    "for module_name, package_name in DEPENDENCIES.items():",
    "    if importlib.util.find_spec(module_name) is None:",
    "        print(f'Installing \x7bpackage_name\x7d...')",
    "        subprocess.check_call([sys.executable, '-m', 'pip', 'install', package_name])"],
  code_cell [
    "import ee",
    "import geemap",
    "import pandas as pd",
    "import matplotlib.pyplot as plt",
    "",
    "try:",
    "    ee.Initialize()",
    "    print('Google Earth Engine initialized.')",
    "except Exception:",
    "    print('Authenticating with Google Earth Engine...')",
    "    ee.Authenticate()",
    "    ee.Initialize()",
    "    print('Authentication complete.')"],
  markdown_cell
    ("## Configuration and Helper Functions\n\n" ++
     "Define the ROI, time windows, and utility functions for cloud masking, NDVI computation, and data sourcing with a fallback for historical imagery.\n"),
  code_cell [
    "def mask_s2_clouds(image):",
    "    \"\"\"Mask clouds in a Sentinel-2 image using the QA60 band.\"\"\"",
    "    qa = image.select('QA60')",
    "    cloud_bit_mask = 1 << 10",
    "    cirrus_bit_mask = 1 << 11",
    "    mask = qa.bitwiseAnd(cloud_bit_mask).eq(0).And(qa.bitwiseAnd(cirrus_bit_mask).eq(0))",
    "    return image.updateMask(mask).divide(10000)",
    "",
    "",
    "def add_ndvi(image):",
    "    \"\"\"Add an NDVI band to a Sentinel-2 image.\"\"\"",
    "    ndvi = image.normalizedDifference(['B8', 'B4']).rename('NDVI')",
    "    return image.addBands(ndvi)",
    "",
    "",
    "def get_sentinel_collection(start_date, end_date, region, max_cloud=20):",
    "    sr_id = 'COPERNICUS/S2_SR_HARMONIZED'",
    "    sr_collection = (",
    "        ee.ImageCollection(sr_id)",
    "        .filterDate(start_date, end_date)",
    "        .filterBounds(region)",
    "        .filter(ee.Filter.lt('CLOUDY_PIXEL_PERCENTAGE', max_cloud))",
    "    )",
    "",
    "    sr_count = sr_collection.size().getInfo() or 0",
    "    if sr_count > 0:",
    "        return sr_collection, sr_id",
    "",
    "    toa_id = 'COPERNICUS/S2'",
    "    toa_collection = (",
    "        ee.ImageCollection(toa_id)",
    "        .filterDate(start_date, end_date)",
    "        .filterBounds(region)",
    "        .filter(ee.Filter.lt('CLOUDY_PIXEL_PERCENTAGE', max_cloud))",
    "    )",
    "",
    "    toa_count = toa_collection.size().getInfo() or 0",
    "    if toa_count == 0:",
    "        raise RuntimeError(",
    "            f'No Sentinel-2 imagery available for \x7bstart_date\x7d to \x7bend_date\x7d in the selected ROI.'",
    "        )",
    "",
    "    print(f'Fallback to \x7btoa_id\x7d for \x7bstart_date\x7d - \x7bend_date\x7d.')",
    "    return toa_collection, toa_id"],
  code_cell [
    "roi = ee.Geometry.Rectangle([124.60, 8.30, 124.70, 8.40])",
    "",
    "start_date_recent = '2024-01-01'",
    "end_date_recent = '2024-12-31'",
    "start_date_historical = '2015-01-01'",
    "end_date_historical = '2015-12-31'",
    "",
    "VEGETATION_LOSS_THRESHOLD = -0.15",
    "",
    "recent_collection, recent_dataset = get_sentinel_collection(start_date_recent, end_date_recent, roi)",
    "historical_collection, historical_dataset = get_sentinel_collection(start_date_historical, end_date_historical, roi)",
    "",
    "recent_image = recent_collection.map(mask_s2_clouds).median()",
    "recent_image_with_ndvi = add_ndvi(recent_image)",
    "",
    "historical_image = historical_collection.map(mask_s2_clouds).median()",
    "historical_image_with_ndvi = add_ndvi(historical_image)",
    "",
    "print(f'Using \x7brecent_dataset\x7d for the recent period and \x7bhistorical_dataset\x7d for the historical baseline.')"],
  code_cell [
    "ndvi_difference = recent_image_with_ndvi.select('NDVI').subtract(",
    "    historical_image_with_ndvi.select('NDVI')",
    ")",
    "",
    "mean_ndvi_change_dict = ndvi_difference.reduceRegion(",
    "    reducer=ee.Reducer.mean(),",
    "    geometry=roi,",
    "    scale=30,",
    ")",
    "",
    "mean_ndvi_change_value = None",
    "mean_ndvi_change = mean_ndvi_change_dict.get('NDVI')",
    "if mean_ndvi_change is not None:",
    "    try:",
    "        mean_ndvi_change_value = mean_ndvi_change.getInfo()",
    "    except Exception as exc:",
    "        print(f'Unable to retrieve NDVI change: \x7bexc\x7d')",
    "",
    "if mean_ndvi_change_value is None:",
    "    alert_message = (",
    "        '>>> DATA WARNING: Unable to compute NDVI change for the selected period.\\n'",
    "        '>>> Please verify imagery availability or adjust the ROI and time range.\\n'",
    "    )",
    "    print('Average NDVI change could not be determined.')",
    "else:",
    "    print(f'Average NDVI Change from 2015 to 2024: \x7bmean_ndvi_change_value:.4f\x7d')",
    "    if mean_ndvi_change_value < VEGETATION_LOSS_THRESHOLD:",
    "        alert_message = (",
    "            '>>> RISK DETECTED: Significant vegetation loss identified.\\n'",
    "            '>>> This area is flagged as a high-risk hotspot.\\n'",
    "            '>>> Recommendation: Deploy Geo-Safe Sensor Nodes to this location.'",
    "        )",
    "    else:",
    "        alert_message = (",
    "            '>>> MONITORING: No significant large-scale vegetation loss detected.\\n'",
    "            '>>> Continue routine satellite monitoring of this area.'",
    "        )",
    "",
    "print('\n------------------------------------------------------------')",
    "print(''.join(alert_message))",
    "print('------------------------------------------------------------')"],
  code_cell [
    "rgb_viz = \x7b'min': 0.0, 'max': 0.3, 'bands': ['B4', 'B3', 'B2']\x7d",
    "ndvi_viz = \x7b'min': 0, 'max': 1, 'palette': ['blue', 'white', 'green']\x7d",
    "change_viz = \x7b'min': -0.5, 'max': 0.5, 'palette': ['red', 'white', 'green']\x7d",
    "",
    "m = geemap.Map(center=[8.35, 124.65], zoom=12)",
    "m.add_layer(recent_image.clip(roi), rgb_viz, 'Recent Image (2024)')",
    "m.add_layer(historical_image.clip(roi), rgb_viz, 'Historical Image (2015)')",
    "m.add_layer(recent_image_with_ndvi.select('NDVI').clip(roi), ndvi_viz, 'Recent NDVI (Vegetation Health)')",
    "m.add_layer(ndvi_difference.clip(roi), change_viz, 'NDVI Change (Red indicates loss)')",
    "m.addLayerControl()",
    "m"]]

/-- A neutral code cell used to populate the concrete test notebooks. -/
def fillerCell : Cell :=
  { cell_type := "code", metadata := [], source := .list ["pass\n"],
    outputs := some [], execution_count := some none }

/-- A cell-5 value that already carries the soil-moisture marker. -/
def cell5P : Cell :=
  { cell_type := "code", metadata := [],
    source := .list ["soil_moisture_layer = None\n"],
    outputs := some [], execution_count := some none }

/-- A cell-7 value that already carries all four visualization markers. -/
def cell7P : Cell :=
  { cell_type := "code", metadata := [],
    source := .list ["soil_moisture_viz slope_viz Soil Moisture (SMAP) Slope (degrees)\n"],
    outputs := some [], execution_count := some none }

/-- A concrete already-patched 8-cell notebook: a fixed point of `main`. -/
def nbP : Notebook :=
  { cells := [fillerCell, fillerCell, fillerCell, fillerCell, fillerCell,
              cell5P, fillerCell, cell7P],
    metadata := [("kernelspec", "python3")] }

/-- A concrete notebook with fewer than 8 cells. -/
def nbSmall : Notebook := { cells := [fillerCell, fillerCell], metadata := [] }

/-- An unpatched cell-5 value (no marker). -/
def cell5W : Cell :=
  { cell_type := "code", metadata := [], source := .list ["x = 1\n"],
    outputs := some [], execution_count := some none }

/-- An unpatched cell-7 value carrying both anchor lines. -/
def cell7W : Cell :=
  { cell_type := "code", metadata := [],
    source := .list ["change_viz = 0\n", "m.add_layer(risk_hotspots, viz, 'Risk')\n"],
    outputs := some [], execution_count := some none }

/-- A concrete unpatched 8-cell notebook. -/
def nbW : Notebook :=
  { cells := [fillerCell, fillerCell, fillerCell, fillerCell, fillerCell,
              cell5W, fillerCell, cell7W],
    metadata := [("kernelspec", "python3")] }

/-- The notebook `main` produces from `nbW`. -/
def nbW2 : Notebook :=
  { nbW with cells := (nbW.cells.set 5 (patchCell5 cell5W)).set 7 (patchCell7 cell7W) }

end GeoSafe

namespace GeoSafe

/-! ### Splitting and joining lines -/

theorem flatten_consLine (c : Char) (ls : List (List Char)) :
    (consLine c ls).flatten = c :: ls.flatten := by
  cases ls <;> rfl

theorem flatten_splitlinesKeepends : ∀ cs : List Char, (splitlinesKeepends cs).flatten = cs
  | [] => rfl
  | [c] => rfl
  | c :: d :: rest => by
    by_cases h1 : c = '\r' ∧ d = '\n'
    · obtain ⟨hc, hd⟩ := h1
      subst hc; subst hd
      have e : splitlinesKeepends ('\r' :: '\n' :: rest)
          = ('\r' :: '\n' :: []) :: splitlinesKeepends rest := by
        simp [splitlinesKeepends]
      rw [e, List.flatten_cons, flatten_splitlinesKeepends rest]
      rfl
    · by_cases h2 : isLineBreak c
      · have e : splitlinesKeepends (c :: d :: rest)
            = [c] :: splitlinesKeepends (d :: rest) := by
          simp [splitlinesKeepends, h1, h2]
        rw [e, List.flatten_cons, flatten_splitlinesKeepends (d :: rest)]
        rfl
      · have e : splitlinesKeepends (c :: d :: rest)
            = consLine c (splitlinesKeepends (d :: rest)) := by
          simp [splitlinesKeepends, h1, h2]
        rw [e, flatten_consLine, flatten_splitlinesKeepends (d :: rest)]

/-- Joining the kept-ends line split returns the original string: the
representation-normalization of `modify_nb` loses no content. -/
theorem joinStr_splitlines (s : String) : joinStr (splitlines s) = s := by
  unfold joinStr splitlines
  rw [List.map_map]
  have h : (String.data ∘ String.mk) = id := rfl
  rw [h, List.map_id, flatten_splitlinesKeepends]

/-! ### List utilities -/

theorem set_getElem?_self {α : Type _} :
    ∀ (l : List α) (i : Nat) (a : α), l[i]? = some a → l.set i a = l
  | [], i, a, h => by simp at h
  | x :: xs, 0, a, h => by
    simp only [List.getElem?_cons_zero, Option.some.injEq] at h
    simp [List.set, h]
  | x :: xs, i + 1, a, h => by
    simp only [List.getElem?_cons_succ] at h
    simp [List.set, set_getElem?_self xs i a h]

theorem pyInsert_zero : ∀ (l : List String) (a : String), pyInsert l 0 a = a :: l
  | [], _ => rfl
  | _ :: _, _ => rfl

theorem length_pyInsert : ∀ (l : List String) (n : Nat) (a : String),
    (pyInsert l n a).length = l.length + 1
  | l, 0, a => by simp [pyInsert_zero]
  | [], _ + 1, _ => rfl
  | x :: xs, n + 1, a => by simp [pyInsert, length_pyInsert xs n a]

theorem pyInsert_eq_append : ∀ (l : List String) (n : Nat) (a : String), n ≤ l.length →
    pyInsert l n a = l.take n ++ a :: l.drop n
  | l, 0, a, _ => by simp [pyInsert_zero]
  | [], n + 1, a, h => absurd h (Nat.not_succ_le_zero n)
  | x :: xs, n + 1, a, h => by
    simp only [pyInsert, List.take_succ_cons, List.drop_succ_cons, List.cons_append,
      List.cons.injEq, true_and]
    exact pyInsert_eq_append xs n a (Nat.le_of_succ_le_succ h)

theorem sublist_pyInsert : ∀ (l : List String) (n : Nat) (a : String), l.Sublist (pyInsert l n a)
  | l, 0, a => by
    rw [pyInsert_zero]
    exact List.Sublist.cons a (List.Sublist.refl l)
  | [], _ + 1, _ => List.nil_sublist _
  | x :: xs, n + 1, a => by
    simp only [pyInsert]
    exact List.Sublist.cons₂ x (sublist_pyInsert xs n a)

theorem any_pyInsert : ∀ (l : List String) (n : Nat) (a : String) (p : String → Bool),
    (pyInsert l n a).any p = (p a || l.any p)
  | l, 0, a, p => by simp [pyInsert_zero]
  | [], _ + 1, _, _ => by simp [pyInsert]
  | x :: xs, n + 1, a, p => by
    simp [pyInsert, any_pyInsert xs n a p, Bool.or_left_comm]

theorem getElem?_pyInsert_lt : ∀ (l : List String) (n : Nat) (a : String) (j : Nat),
    j < n → n ≤ l.length → (pyInsert l n a)[j]? = l[j]?
  | _, 0, _, j, hj, _ => absurd hj (Nat.not_lt_zero j)
  | [], n + 1, _, _, _, hn => absurd hn (Nat.not_succ_le_zero n)
  | x :: xs, n + 1, a, 0, _, _ => by simp [pyInsert]
  | x :: xs, n + 1, a, j + 1, hj, hn => by
    simp only [pyInsert, List.getElem?_cons_succ]
    exact getElem?_pyInsert_lt xs n a j (Nat.lt_of_succ_lt_succ hj) (Nat.le_of_succ_le_succ hn)

theorem getElem?_pyInsert_self : ∀ (l : List String) (n : Nat) (a : String),
    n ≤ l.length → (pyInsert l n a)[n]? = some a
  | l, 0, a, _ => by simp [pyInsert_zero]
  | [], n + 1, _, h => absurd h (Nat.not_succ_le_zero n)
  | x :: xs, n + 1, a, h => by
    simp only [pyInsert, List.getElem?_cons_succ]
    exact getElem?_pyInsert_self xs n a (Nat.le_of_succ_le_succ h)

theorem getElem?_pyInsert_succ_ge : ∀ (l : List String) (n : Nat) (a : String) (j : Nat),
    n ≤ j → (pyInsert l n a)[j + 1]? = l[j]?
  | l, 0, a, j, _ => by simp [pyInsert_zero]
  | [], n + 1, a, j, h => by
    cases j with
    | zero => exact absurd h (Nat.not_succ_le_zero n)
    | succ j2 => simp [pyInsert]
  | x :: xs, n + 1, a, 0, h => absurd h (Nat.not_succ_le_zero n)
  | x :: xs, n + 1, a, j + 1, h => by
    simp only [pyInsert, List.getElem?_cons_succ]
    exact getElem?_pyInsert_succ_ge xs n a j (Nat.le_of_succ_le_succ h)

theorem firstIdx?_lt_length {p : String → Bool} :
    ∀ (l : List String) (i : Nat), firstIdx? p l = some i → i < l.length
  | [], i, h => by simp [firstIdx?] at h
  | x :: xs, i, h => by
    by_cases hx : p x
    · simp [firstIdx?, hx] at h
      subst h
      simp
    · simp only [firstIdx?, hx, Bool.false_eq_true, if_false,
        Option.map_eq_some'] at h
      obtain ⟨j, hj, rfl⟩ := h
      have := firstIdx?_lt_length xs j hj
      simp
      omega

theorem firstIdx?_getElem? {p : String → Bool} :
    ∀ (l : List String) (i : Nat), firstIdx? p l = some i → ∃ x, l[i]? = some x ∧ p x = true
  | [], i, h => by simp [firstIdx?] at h
  | x :: xs, i, h => by
    by_cases hx : p x
    · simp [firstIdx?, hx] at h
      exact ⟨x, by simp [← h], hx⟩
    · simp only [firstIdx?, hx, Bool.false_eq_true, if_false, Option.map_eq_some'] at h
      obtain ⟨j, hj, rfl⟩ := h
      obtain ⟨y, hy, hpy⟩ := firstIdx?_getElem? xs j hj
      exact ⟨y, by simpa using hy, hpy⟩

theorem firstIdx?_first {p : String → Bool} :
    ∀ (l : List String) (i : Nat), firstIdx? p l = some i →
      ∀ j y, j < i → l[j]? = some y → p y = false
  | [], i, h => by simp [firstIdx?] at h
  | x :: xs, i, h => by
    by_cases hx : p x
    · simp [firstIdx?, hx] at h
      intro j y hj hy
      omega
    · simp only [firstIdx?, hx, Bool.false_eq_true, if_false, Option.map_eq_some'] at h
      obtain ⟨k, hk, rfl⟩ := h
      intro j y hj hy
      cases j with
      | zero =>
        simp only [List.getElem?_cons_zero, Option.some.injEq] at hy
        subst hy
        exact Bool.eq_false_iff.mpr hx
      | succ j2 =>
        simp only [List.getElem?_cons_succ] at hy
        exact firstIdx?_first xs k hk j2 y (Nat.lt_of_succ_lt_succ hj) hy

theorem firstIdx?_pyInsert_gt {p : String → Bool} :
    ∀ (l : List String) (i n : Nat) (a : String), firstIdx? p l = some i →
      p a = false → i < n → firstIdx? p (pyInsert l n a) = some i
  | [], i, n, a, h, _, _ => by simp [firstIdx?] at h
  | x :: xs, i, n, a, h, ha, hin => by
    cases n with
    | zero => exact absurd hin (Nat.not_lt_zero i)
    | succ m =>
      by_cases hx : p x
      · simp [firstIdx?, hx] at h
        simp [pyInsert, firstIdx?, hx, h]
      · simp only [firstIdx?, hx, Bool.false_eq_true, if_false, Option.map_eq_some'] at h
        obtain ⟨j, hj, rfl⟩ := h
        simp only [pyInsert, firstIdx?, hx, Bool.false_eq_true, if_false]
        rw [firstIdx?_pyInsert_gt xs j m a hj ha (Nat.lt_of_succ_lt_succ hin)]
        rfl

theorem sublist_insertAll :
    ∀ (adds l : List String) (i : Nat), l.Sublist (insertAll l i adds)
  | [], l, _ => List.Sublist.refl l
  | a :: rest, l, i => by
    rw [insertAll]
    exact (sublist_pyInsert l i a).trans (sublist_insertAll rest (pyInsert l i a) (i + 1))

end GeoSafe

namespace GeoSafe

/-! ### Patch-level lemmas -/

theorem patchLines5_of_marker (lines5 : List String)
    (h : lines5.any (fun line => pyIn "soil_moisture_layer" line) = true) :
    patchLines5 lines5 = lines5 := by
  simp [patchLines5, h]

theorem extendLines5_eq (lines5 : List String) :
    extendLines5 lines5 =
      lines5 ++ ((if lines5 ≠ [] ∧ lines5.getLast? ≠ some "\n" then ["\n"] else []) ++
        "\n" :: block) := by
  unfold extendLines5
  by_cases h : lines5 ≠ [] ∧ lines5.getLast? ≠ some "\n" <;> simp [h]

theorem any_extendLines5_marker (lines5 : List String) :
    (extendLines5 lines5).any (fun line => pyIn "soil_moisture_layer" line) = true := by
  have hb : ("\n" :: block).any (fun line => pyIn "soil_moisture_layer" line) = true := by
    decide
  rw [extendLines5_eq]
  simp [List.any_append, hb]

theorem patchLines5_marker_after (lines5 : List String) :
    (patchLines5 lines5).any (fun line => pyIn "soil_moisture_layer" line) = true := by
  cases hx : lines5.any (fun line => pyIn "soil_moisture_layer" line) with
  | false => simp [patchLines5, hx, any_extendLines5_marker]
  | true => simp [patchLines5, hx]

theorem patchLines5_idem (lines5 : List String) :
    patchLines5 (patchLines5 lines5) = patchLines5 lines5 :=
  patchLines5_of_marker _ (patchLines5_marker_after lines5)

theorem sublist_patchLines5 (lines5 : List String) : lines5.Sublist (patchLines5 lines5) := by
  cases hx : lines5.any (fun line => pyIn "soil_moisture_layer" line) with
  | false =>
    simp only [patchLines5, hx, Bool.not_false, if_pos]
    rw [extendLines5_eq]
    exact List.sublist_append_left _ _
  | true => simp [patchLines5, hx]

theorem step1_of_marker (lines7 : List String)
    (h : lines7.any (fun line => pyIn "soil_moisture_viz" line) = true) :
    step1 lines7 = (lines7, false) := by
  simp [step1, h]

theorem step2_of_marker (lines7 : List String) (b : Bool)
    (h : lines7.any (fun line => pyIn "slope_viz" line) = true) :
    step2 lines7 b = lines7 := by
  simp [step2, h]

theorem step3_of_markers (lines7 : List String)
    (h1 : lines7.any (fun line => pyIn "Soil Moisture (SMAP)" line) = true)
    (h2 : lines7.any (fun line => pyIn "Slope (degrees)" line) = true) :
    step3 lines7 = lines7 := by
  simp [step3, h1, h2]

theorem patchLines7_of_markers (lines7 : List String)
    (h1 : lines7.any (fun line => pyIn "soil_moisture_viz" line) = true)
    (h2 : lines7.any (fun line => pyIn "slope_viz" line) = true)
    (h3 : lines7.any (fun line => pyIn "Soil Moisture (SMAP)" line) = true)
    (h4 : lines7.any (fun line => pyIn "Slope (degrees)" line) = true) :
    patchLines7 lines7 = lines7 := by
  unfold patchLines7
  rw [step1_of_marker _ h1]
  dsimp only
  rw [step2_of_marker _ _ h2, step3_of_markers _ h3 h4]

theorem step1_of_no_anchor (lines7 : List String)
    (h : firstIdx? (fun line => startswith line "change_viz") lines7 = none) :
    step1 lines7 = (lines7, false) := by
  cases hx : lines7.any (fun line => pyIn "soil_moisture_viz" line) with
  | false => simp [step1, hx, h]
  | true => simp [step1, hx]

theorem step2_of_no_anchor (lines7 : List String) (b : Bool)
    (h : firstIdx? (fun line => startswith line "change_viz") lines7 = none) :
    step2 lines7 b = lines7 := by
  cases hx : lines7.any (fun line => pyIn "slope_viz" line) with
  | false => simp [step2, hx, h]
  | true => simp [step2, hx]

theorem step3_of_no_anchor (lines7 : List String)
    (h : firstIdx? (fun line => pyIn "m.add_layer(risk_hotspots" line) lines7 = none) :
    step3 lines7 = lines7 := by
  cases hx : lines7.any (fun line => pyIn "Soil Moisture (SMAP)" line) with
  | false => simp [step3, hx, h]
  | true =>
    cases hy : lines7.any (fun line => pyIn "Slope (degrees)" line) with
    | false => simp [step3, hx, hy, h]
    | true => simp [step3, hx, hy]

theorem assign_ensure (c : Cell) :
    assign_source c (ensure_list_source c).1 (ensure_list_source c).2 = c := by
  rcases c with ⟨t, md, src, o, e⟩
  cases src with
  | str s => simp [ensure_list_source, assign_source, joinStr_splitlines]
  | list ls => simp [ensure_list_source, assign_source]

theorem patchCell5_of_marker (c : Cell)
    (h : (ensure_list_source c).1.any (fun line => pyIn "soil_moisture_layer" line) = true) :
    patchCell5 c = c := by
  unfold patchCell5
  simp [h]

theorem patchCell7_of_markers (c : Cell)
    (h1 : (ensure_list_source c).1.any (fun line => pyIn "soil_moisture_viz" line) = true)
    (h2 : (ensure_list_source c).1.any (fun line => pyIn "slope_viz" line) = true)
    (h3 : (ensure_list_source c).1.any (fun line => pyIn "Soil Moisture (SMAP)" line) = true)
    (h4 : (ensure_list_source c).1.any (fun line => pyIn "Slope (degrees)" line) = true) :
    patchCell7 c = c := by
  show assign_source c (patchLines7 (ensure_list_source c).1) (ensure_list_source c).2 = c
  rw [patchLines7_of_markers _ h1 h2 h3 h4]
  exact assign_ensure c

theorem main_eq_some (nb nb' : Notebook) :
    main nb = some nb' ↔ ∃ c5 c7, nb.cells[5]? = some c5 ∧ nb.cells[7]? = some c7 ∧
      nb' = { nb with cells := (nb.cells.set 5 (patchCell5 c5)).set 7 (patchCell7 c7) } := by
  unfold main
  cases h5 : nb.cells[5]? with
  | none => simp [h5]
  | some c5 =>
    have h7e : (nb.cells.set 5 (patchCell5 c5))[7]? = nb.cells[7]? :=
      List.getElem?_set_ne (by decide)
    cases h7 : nb.cells[7]? with
    | none => simp [h5, h7e, h7]
    | some c7 =>
      simp only [h5, h7e, h7, Option.some.injEq]
      constructor
      · intro h
        exact ⟨c5, c7, rfl, rfl, h.symm⟩
      · rintro ⟨d5, d7, hd5, hd7, rfl⟩
        cases hd5
        cases hd7
        rfl

end GeoSafe

namespace GeoSafe

/-! ### Claim theorems -/

/-- **C1.**  Idempotence of the patcher: if one application of `main`
succeeded and left every idempotency marker in place in the written document
(`"soil_moisture_layer"` in cell 5; `"soil_moisture_viz"`, `"slope_viz"`,
`"Soil Moisture (SMAP)"`, together with the `elif` guard `"Slope (degrees)"`,
in cell 7 — exactly the state a first run whose marker insertions succeeded
leaves behind), then a second application of `main` returns the very same
document, so the rewritten file is byte-identical and in particular neither
patched cell changes again. -/
theorem main_idempotent (nb nb' : Notebook) (h : main nb = some nb')
    (hm5 : cellHasMarker nb' 5 "soil_moisture_layer" = true)
    (hm7a : cellHasMarker nb' 7 "soil_moisture_viz" = true)
    (hm7b : cellHasMarker nb' 7 "slope_viz" = true)
    (hm7c : cellHasMarker nb' 7 "Soil Moisture (SMAP)" = true)
    (hm7d : cellHasMarker nb' 7 "Slope (degrees)" = true) :
    main nb' = some nb' := by
  obtain ⟨c5, c7, h5, h7, rfl⟩ := (main_eq_some nb nb').mp h
  have hlen5 : 5 < nb.cells.length := (List.getElem?_eq_some.mp h5).1
  have hlen7 : 7 < nb.cells.length := (List.getElem?_eq_some.mp h7).1
  have g5 : ((nb.cells.set 5 (patchCell5 c5)).set 7 (patchCell7 c7))[5]? =
      some (patchCell5 c5) := by
    rw [List.getElem?_set_ne (by decide : (7 : Nat) ≠ 5)]
    exact List.getElem?_set_self hlen5
  have g7 : ((nb.cells.set 5 (patchCell5 c5)).set 7 (patchCell7 c7))[7]? =
      some (patchCell7 c7) :=
    List.getElem?_set_self (by simpa using hlen7)
  have hm5c : (ensure_list_source (patchCell5 c5)).1.any
      (fun line => pyIn "soil_moisture_layer" line) = true := by
    unfold cellHasMarker at hm5
    rw [g5] at hm5
    exact hm5
  have hm7ac : (ensure_list_source (patchCell7 c7)).1.any
      (fun line => pyIn "soil_moisture_viz" line) = true := by
    unfold cellHasMarker at hm7a
    rw [g7] at hm7a
    exact hm7a
  have hm7bc : (ensure_list_source (patchCell7 c7)).1.any
      (fun line => pyIn "slope_viz" line) = true := by
    unfold cellHasMarker at hm7b
    rw [g7] at hm7b
    exact hm7b
  have hm7cc : (ensure_list_source (patchCell7 c7)).1.any
      (fun line => pyIn "Soil Moisture (SMAP)" line) = true := by
    unfold cellHasMarker at hm7c
    rw [g7] at hm7c
    exact hm7c
  have hm7dc : (ensure_list_source (patchCell7 c7)).1.any
      (fun line => pyIn "Slope (degrees)" line) = true := by
    unfold cellHasMarker at hm7d
    rw [g7] at hm7d
    exact hm7d
  rw [main_eq_some]
  refine ⟨patchCell5 c5, patchCell7 c7, g5, g7, ?_⟩
  rw [patchCell5_of_marker _ hm5c, patchCell7_of_markers _ hm7ac hm7bc hm7cc hm7dc,
    set_getElem?_self _ _ _ g5, set_getElem?_self _ _ _ g7]

/-- Witness for C1 at the concrete already-patched notebook `nbP`. -/
theorem main_idempotent_witness : main nbP = some nbP :=
  main_idempotent nbP nbP (by decide) (by decide) (by decide) (by decide) (by decide)
    (by decide)

end GeoSafe

namespace GeoSafe

theorem sublist_step1 (lines7 : List String) : lines7.Sublist (step1 lines7).1 := by
  unfold step1
  cases hx : lines7.any (fun line => pyIn "soil_moisture_viz" line) with
  | false =>
    cases hi : firstIdx? (fun line => startswith line "change_viz") lines7 with
    | none => simp [hx, hi]
    | some idx => simp only [hx, Bool.not_false, if_pos, hi]; exact sublist_pyInsert _ _ _
  | true => simp [hx]

theorem sublist_step2 (lines7 : List String) (b : Bool) : lines7.Sublist (step2 lines7 b) := by
  unfold step2
  cases hx : lines7.any (fun line => pyIn "slope_viz" line) with
  | false =>
    cases hi : firstIdx? (fun line => startswith line "change_viz") lines7 with
    | none => simp [hx, hi]
    | some idx => simp only [hx, Bool.not_false, if_pos, hi]; exact sublist_pyInsert _ _ _
  | true => simp [hx]

theorem sublist_step3 (lines7 : List String) : lines7.Sublist (step3 lines7) := by
  unfold step3
  cases hx : lines7.any (fun line => pyIn "Soil Moisture (SMAP)" line) with
  | false =>
    cases hi : firstIdx? (fun line => pyIn "m.add_layer(risk_hotspots" line) lines7 with
    | none => simp [hx, hi]
    | some idx => simp only [hx, Bool.not_false, if_pos, hi]; exact sublist_insertAll _ _ _
  | true =>
    cases hy : lines7.any (fun line => pyIn "Slope (degrees)" line) with
    | false =>
      cases hi : firstIdx? (fun line => pyIn "m.add_layer(risk_hotspots" line) lines7 with
      | none => simp [hx, hy, hi]
      | some idx =>
        simp only [hx, hy, Bool.not_true, Bool.not_false, if_pos, Bool.false_eq_true,
          if_false, hi]
        exact sublist_pyInsert _ _ _
    | true => simp [hx, hy]

theorem sublist_patchLines7 (lines7 : List String) : lines7.Sublist (patchLines7 lines7) := by
  unfold patchLines7
  exact ((sublist_step1 lines7).trans (sublist_step2 _ _)).trans (sublist_step3 _)

theorem ensure_snd (c : Cell) : (ensure_list_source c).2 = isListSource c.source := by
  rcases c with ⟨t, md, src, o, e⟩
  cases src <;> rfl

theorem isListSource_assign (c : Cell) (L : List String) (w : Bool) :
    isListSource (assign_source c L w).source = w := by
  cases w <;> rfl

theorem sourceText_assign (c : Cell) (L : List String) (w : Bool) :
    sourceText (assign_source c L w).source = joinStr L := by
  cases w <;> rfl

theorem sourceText_ensure (c : Cell) : sourceText c.source = joinStr (ensure_list_source c).1 := by
  rcases c with ⟨t, md, src, o, e⟩
  cases src with
  | str s => simp [ensure_list_source, sourceText, joinStr_splitlines]
  | list ls => rfl

theorem isListSource_patchCell5 (c : Cell) :
    isListSource (patchCell5 c).source = isListSource c.source := by
  cases hx : (ensure_list_source c).1.any (fun line => pyIn "soil_moisture_layer" line) with
  | false => simp [patchCell5, hx, isListSource_assign, ensure_snd]
  | true => simp [patchCell5, hx]

theorem sourceText_patchCell5 (c : Cell) :
    sourceText (patchCell5 c).source = joinStr (patchLines5 (ensure_list_source c).1) := by
  cases hx : (ensure_list_source c).1.any (fun line => pyIn "soil_moisture_layer" line) with
  | false => simp [patchCell5, patchLines5, hx, sourceText_assign]
  | true => simp [patchCell5, patchLines5, hx, sourceText_ensure]

theorem isListSource_patchCell7 (c : Cell) :
    isListSource (patchCell7 c).source = isListSource c.source := by
  simp [patchCell7, isListSource_assign, ensure_snd]

theorem sourceText_patchCell7 (c : Cell) :
    sourceText (patchCell7 c).source = joinStr (patchLines7 (ensure_list_source c).1) := by
  simp [patchCell7, sourceText_assign]

/-- **C2.**  Representation round-trip: for every cell, re-assigning the
normalized line list in its remembered representation is the identity on the
cell; both cell patches preserve the single-string versus line-sequence
representation of the source; the concatenated output content is the join of
the patched line list, whose lines are the original normalized lines (an
order-preserving sublist) plus exactly the newly inserted ones. -/
theorem source_representation_roundtrip (c : Cell) :
    assign_source c (ensure_list_source c).1 (ensure_list_source c).2 = c
    ∧ isListSource (patchCell5 c).source = isListSource c.source
    ∧ isListSource (patchCell7 c).source = isListSource c.source
    ∧ sourceText c.source = joinStr (ensure_list_source c).1
    ∧ sourceText (patchCell5 c).source = joinStr (patchLines5 (ensure_list_source c).1)
    ∧ sourceText (patchCell7 c).source = joinStr (patchLines7 (ensure_list_source c).1)
    ∧ List.Sublist (ensure_list_source c).1 (patchLines5 (ensure_list_source c).1)
    ∧ List.Sublist (ensure_list_source c).1 (patchLines7 (ensure_list_source c).1) :=
  ⟨assign_ensure c, isListSource_patchCell5 c, isListSource_patchCell7 c,
    sourceText_ensure c, sourceText_patchCell5 c, sourceText_patchCell7 c,
    sublist_patchLines5 _, sublist_patchLines7 _⟩

end GeoSafe

namespace GeoSafe

theorem main_none (nb : Notebook) (h : nb.cells.length < 8) : main nb = none := by
  unfold main
  cases h5 : nb.cells[5]? with
  | none => rfl
  | some c5 =>
    have h7 : (nb.cells.set 5 (patchCell5 c5))[7]? = none :=
      List.getElem?_eq_none (by rw [List.length_set]; omega)
    simp [h7]

theorem main_isSome (nb : Notebook) (h : 8 ≤ nb.cells.length) : (main nb).isSome = true := by
  unfold main
  rw [List.getElem?_eq_getElem (show 5 < nb.cells.length by omega)]
  dsimp only
  rw [List.getElem?_eq_getElem (show 7 < (nb.cells.set 5 (patchCell5 nb.cells[5])).length by
    rw [List.length_set]; omega)]
  rfl

/-- **C3.**  A cell-5 line list with no line containing the
`"soil_moisture_layer"` marker: one run appends the fixed 17-line block after
a trailing blank line (one or two `"\n"` lines, the second added only when
the list did not already end in a blank line), and a second run leaves the
cell's lines unchanged. -/
theorem cell5_append_block (lines : List String)
    (h : lines.any (fun line => pyIn "soil_moisture_layer" line) = false) :
    (∃ pad, (pad = ["\n"] ∨ pad = ["\n", "\n"]) ∧
      patchLines5 lines = lines ++ pad ++ block)
    ∧ block.length = 17
    ∧ patchLines5 (patchLines5 lines) = patchLines5 lines := by
  refine ⟨?_, rfl, patchLines5_idem lines⟩
  have e : patchLines5 lines = extendLines5 lines := by simp [patchLines5, h]
  rw [e, extendLines5_eq]
  by_cases hp : lines ≠ [] ∧ lines.getLast? ≠ some "\n"
  · exact ⟨["\n", "\n"], Or.inr rfl, by simp [hp]⟩
  · exact ⟨["\n"], Or.inl rfl, by simp [hp]⟩

/-- Witness for C3 at the concrete line list `["x\n"]`. -/
theorem cell5_append_block_witness :
    (∃ pad, (pad = ["\n"] ∨ pad = ["\n", "\n"]) ∧
      patchLines5 ["x\n"] = ["x\n"] ++ pad ++ block)
    ∧ block.length = 17
    ∧ patchLines5 (patchLines5 ["x\n"]) = patchLines5 ["x\n"] :=
  cell5_append_block ["x\n"] (by decide)

/-- **C7.**  A document with fewer than 8 cells makes the patcher fail with
the index fault (modelled by `none`) instead of terminating normally, while
on a document with at least 8 cells both cell accesses succeed and the run
completes. -/
theorem main_cell_count_fault (nb : Notebook) :
    (nb.cells.length < 8 → main nb = none)
    ∧ (8 ≤ nb.cells.length → (main nb).isSome = true) :=
  ⟨main_none nb, main_isSome nb⟩

/-- Witness for C7: a 2-cell notebook faults, the 8-cell notebook succeeds. -/
theorem main_cell_count_fault_witness :
    main nbSmall = none ∧ (main nbP).isSome = true :=
  ⟨(main_cell_count_fault nbSmall).1 (by decide),
   (main_cell_count_fault nbP).2 (by decide)⟩

/-- **C5.**  On any successful run the cell count is unchanged, cells other
than 5 and 7 are untouched (so the relative order of all cells is kept), and
each patched cell's line list is transformed into a list of which the
original lines form an order-preserving sublist — no pre-existing line is
removed, modified, or reordered; the output content is the join of that
patched list. -/
theorem main_order_preservation (nb nb2 : Notebook) (h : main nb = some nb2) :
    nb2.cells.length = nb.cells.length
    ∧ (∀ i, i ≠ 5 → i ≠ 7 → nb2.cells[i]? = nb.cells[i]?)
    ∧ (∀ c5, nb.cells[5]? = some c5 →
        nb2.cells[5]? = some (patchCell5 c5)
        ∧ List.Sublist (ensure_list_source c5).1 (patchLines5 (ensure_list_source c5).1)
        ∧ sourceText (patchCell5 c5).source = joinStr (patchLines5 (ensure_list_source c5).1))
    ∧ (∀ c7, nb.cells[7]? = some c7 →
        nb2.cells[7]? = some (patchCell7 c7)
        ∧ List.Sublist (ensure_list_source c7).1 (patchLines7 (ensure_list_source c7).1)
        ∧ sourceText (patchCell7 c7).source = joinStr (patchLines7 (ensure_list_source c7).1)) := by
  obtain ⟨c5, c7, h5, h7, rfl⟩ := (main_eq_some nb nb2).mp h
  have hlen5 : 5 < nb.cells.length := (List.getElem?_eq_some.mp h5).1
  have hlen7 : 7 < nb.cells.length := (List.getElem?_eq_some.mp h7).1
  refine ⟨by simp, ?_, ?_, ?_⟩
  · intro i hi5 hi7
    show ((nb.cells.set 5 (patchCell5 c5)).set 7 (patchCell7 c7))[i]? = nb.cells[i]?
    rw [List.getElem?_set_ne (Ne.symm hi7), List.getElem?_set_ne (Ne.symm hi5)]
  · intro d5 hd5
    rw [h5, Option.some.injEq] at hd5
    subst hd5
    refine ⟨?_, sublist_patchLines5 _, sourceText_patchCell5 _⟩
    show ((nb.cells.set 5 (patchCell5 c5)).set 7 (patchCell7 c7))[5]? = _
    rw [List.getElem?_set_ne (by decide : (7 : Nat) ≠ 5)]
    exact List.getElem?_set_self hlen5
  · intro d7 hd7
    rw [h7, Option.some.injEq] at hd7
    subst hd7
    refine ⟨?_, sublist_patchLines7 _, sourceText_patchCell7 _⟩
    exact List.getElem?_set_self (by simpa using hlen7)

/-- Witness for C5 at the concrete notebook `nbW` (patched into `nbW2`). -/
theorem main_order_preservation_witness :
    nbW2.cells.length = nbW.cells.length ∧ nbW2.cells[0]? = nbW.cells[0]? :=
  ⟨(main_order_preservation nbW nbW2 (by decide)).1,
   (main_order_preservation nbW nbW2 (by decide)).2.1 0 (by decide) (by decide)⟩

/-- **C9.**  Frame property of a successful run: the notebook metadata and
every cell other than the ones at indices 5 and 7 are written back unchanged,
and cell 5 itself is returned untouched — not even representation-normalized
— whenever it already contains the `"soil_moisture_layer"` marker. -/
theorem main_frame (nb nb2 : Notebook) (h : main nb = some nb2) :
    nb2.metadata = nb.metadata
    ∧ nb2.cells.length = nb.cells.length
    ∧ (∀ i, i ≠ 5 → i ≠ 7 → nb2.cells[i]? = nb.cells[i]?)
    ∧ (∀ c5, nb.cells[5]? = some c5 →
        (ensure_list_source c5).1.any (fun line => pyIn "soil_moisture_layer" line) = true →
        nb2.cells[5]? = some c5) := by
  obtain ⟨c5, c7, h5, h7, rfl⟩ := (main_eq_some nb nb2).mp h
  have hlen5 : 5 < nb.cells.length := (List.getElem?_eq_some.mp h5).1
  refine ⟨rfl, by simp, ?_, ?_⟩
  · intro i hi5 hi7
    show ((nb.cells.set 5 (patchCell5 c5)).set 7 (patchCell7 c7))[i]? = nb.cells[i]?
    rw [List.getElem?_set_ne (Ne.symm hi7), List.getElem?_set_ne (Ne.symm hi5)]
  · intro d5 hd5 hmark
    rw [h5, Option.some.injEq] at hd5
    subst hd5
    show ((nb.cells.set 5 (patchCell5 c5)).set 7 (patchCell7 c7))[5]? = some c5
    rw [List.getElem?_set_ne (by decide : (7 : Nat) ≠ 5), patchCell5_of_marker _ hmark]
    exact List.getElem?_set_self hlen5

/-- Witness for C9 at `nbW` (metadata frame) and `nbP` (marker-present
cell 5 untouched). -/
theorem main_frame_witness :
    nbW2.metadata = nbW.metadata ∧ nbP.cells[5]? = some cell5P :=
  ⟨(main_frame nbW nbW2 (by decide)).1,
   (main_frame nbP nbP (by decide)).2.2.2 cell5P (by decide) (by decide)⟩

end GeoSafe

namespace GeoSafe

/-- **C6.**  Missing-anchor handling in cell 7: when the `change_viz` prefix
anchor has no match, the two visualization insertions are skipped with the
lines unchanged; when the `m.add_layer(risk_hotspots` substring anchor has no
match, step three is skipped; with both anchors missing the whole cell-7 pass
is the identity; no error is raised (`main` still completes on any 8-cell
document); and an anchor search only ever selects the first matching line. -/
theorem cell7_missing_anchor_skip (lines : List String) (b : Bool) :
    (firstIdx? (fun line => startswith line "change_viz") lines = none →
      step1 lines = (lines, false) ∧ step2 lines b = lines)
    ∧ (firstIdx? (fun line => pyIn "m.add_layer(risk_hotspots" line) lines = none →
      step3 lines = lines)
    ∧ (firstIdx? (fun line => startswith line "change_viz") lines = none →
       firstIdx? (fun line => pyIn "m.add_layer(risk_hotspots" line) lines = none →
      patchLines7 lines = lines)
    ∧ (∀ nb : Notebook, 8 ≤ nb.cells.length → (main nb).isSome = true)
    ∧ (∀ i, firstIdx? (fun line => startswith line "change_viz") lines = some i →
        ∀ j y, j < i → lines[j]? = some y → startswith y "change_viz" = false)
    ∧ (∀ i, firstIdx? (fun line => pyIn "m.add_layer(risk_hotspots" line) lines = some i →
        ∀ j y, j < i → lines[j]? = some y → pyIn "m.add_layer(risk_hotspots" y = false) := by
  refine ⟨fun h => ⟨step1_of_no_anchor lines h, step2_of_no_anchor lines b h⟩,
    fun h => step3_of_no_anchor lines h, fun h1 h2 => ?_, main_isSome,
    fun i hi => firstIdx?_first lines i hi,
    fun i hi => firstIdx?_first lines i hi⟩
  unfold patchLines7
  rw [step1_of_no_anchor lines h1]
  dsimp only
  rw [step2_of_no_anchor lines false h1, step3_of_no_anchor lines h2]

/-- Witness for C6 at a concrete anchor-free line list and the notebook
`nbP`. -/
theorem cell7_missing_anchor_skip_witness :
    patchLines7 ["a\n", "b\n"] = ["a\n", "b\n"] ∧ (main nbP).isSome = true :=
  ⟨(cell7_missing_anchor_skip ["a\n", "b\n"] false).2.2.1 (by decide) (by decide),
   (cell7_missing_anchor_skip ["a\n", "b\n"] false).2.2.2.1 nbP (by decide)⟩

/-- **C4.**  A cell-7 line list with a `change_viz` anchor and no
`"slope_viz"` marker: the second step inserts exactly one new line, the slope
visualization literal, at position `idx + 1` right after the first
`change_viz` line — one position further (`idx + 2`) when step one inserted
the soil-moisture visualization line in the same pass. -/
theorem cell7_slope_insertion (lines : List String) (idx : Nat)
    (hc : firstIdx? (fun line => startswith line "change_viz") lines = some idx)
    (hs : lines.any (fun line => pyIn "slope_viz" line) = false) :
    step2 (step1 lines).1 (step1 lines).2 =
      List.take (idx + (if (step1 lines).2 then 2 else 1)) (step1 lines).1 ++
        slopeVizLine :: List.drop (idx + (if (step1 lines).2 then 2 else 1)) (step1 lines).1
    ∧ (step2 (step1 lines).1 (step1 lines).2).length = (step1 lines).1.length + 1
    ∧ (step2 (step1 lines).1 (step1 lines).2)[idx + (if (step1 lines).2 then 2 else 1)]? =
        some slopeVizLine
    ∧ (step1 lines).1[idx]? = lines[idx]?
    ∧ (∃ x, lines[idx]? = some x ∧ startswith x "change_viz" = true) := by
  have hlen : idx < lines.length := firstIdx?_lt_length lines idx hc
  cases hx : lines.any (fun line => pyIn "soil_moisture_viz" line) with
  | true =>
    have e1 : step1 lines = (lines, false) := step1_of_marker lines hx
    rw [e1]
    dsimp only
    have e2 : step2 lines false = pyInsert lines (idx + 1) slopeVizLine := by
      simp [step2, hs, hc]
    rw [if_neg (by simp)]
    refine ⟨?_, ?_, ?_, rfl, firstIdx?_getElem? lines idx hc⟩
    · rw [e2, pyInsert_eq_append _ _ _ (by omega)]
    · rw [e2, length_pyInsert]
    · rw [e2]
      exact getElem?_pyInsert_self _ _ _ (by omega)
  | false =>
    have e1 : step1 lines = (pyInsert lines (idx + 1) smVizLine, true) := by
      simp [step1, hx, hc]
    rw [e1]
    dsimp only
    rw [if_pos rfl]
    have hP : (pyInsert lines (idx + 1) smVizLine).any
        (fun line => pyIn "slope_viz" line) = false := by
      rw [any_pyInsert, hs]
      decide
    have hc2 : firstIdx? (fun line => startswith line "change_viz")
        (pyInsert lines (idx + 1) smVizLine) = some idx :=
      firstIdx?_pyInsert_gt lines idx (idx + 1) smVizLine hc (by decide)
        (Nat.lt_succ_self idx)
    have e2 : step2 (pyInsert lines (idx + 1) smVizLine) true =
        pyInsert (pyInsert lines (idx + 1) smVizLine) (idx + 2) slopeVizLine := by
      simp [step2, hP, hc2]
    have hlen2 : idx + 2 ≤ (pyInsert lines (idx + 1) smVizLine).length := by
      rw [length_pyInsert]; omega
    refine ⟨?_, ?_, ?_, ?_, firstIdx?_getElem? lines idx hc⟩
    · rw [e2, pyInsert_eq_append _ _ _ hlen2]
    · rw [e2, length_pyInsert]
    · rw [e2]
      exact getElem?_pyInsert_self _ _ _ hlen2
    · exact getElem?_pyInsert_lt lines (idx + 1) smVizLine idx (Nat.lt_succ_self idx)
        (by omega)

/-- Witness for C4 at the concrete line list `["change_viz = 0\n"]`. -/
theorem cell7_slope_insertion_witness :
    (step2 (step1 ["change_viz = 0\n"]).1 (step1 ["change_viz = 0\n"]).2)[0 +
        (if (step1 ["change_viz = 0\n"]).2 then 2 else 1)]? = some slopeVizLine :=
  (cell7_slope_insertion ["change_viz = 0\n"] 0 (by decide) (by decide)).2.2.1

/-- **C10.**  A cell-7 line list that already contains a `"soil_moisture_viz"`
line (so step one inserts nothing), has no `"slope_viz"` line and has a
`change_viz` anchor at index `idx`: the slope visualization line is inserted
at exactly `idx + 1`, immediately after the anchor and regardless of where
the pre-existing soil-moisture line sits; whatever line previously followed
the anchor — in particular a soil-moisture visualization line — now sits at
`idx + 2`, directly after the new slope line. -/
theorem cell7_slope_offset_one (lines : List String) (idx : Nat)
    (hp : lines.any (fun line => pyIn "soil_moisture_viz" line) = true)
    (hs : lines.any (fun line => pyIn "slope_viz" line) = false)
    (hc : firstIdx? (fun line => startswith line "change_viz") lines = some idx) :
    step1 lines = (lines, false)
    ∧ step2 lines false =
        List.take (idx + 1) lines ++ slopeVizLine :: List.drop (idx + 1) lines
    ∧ (step2 lines false)[idx + 1]? = some slopeVizLine
    ∧ (∀ l, lines[idx + 1]? = some l → (step2 lines false)[idx + 2]? = some l) := by
  have hlen : idx < lines.length := firstIdx?_lt_length lines idx hc
  have e2 : step2 lines false = pyInsert lines (idx + 1) slopeVizLine := by
    simp [step2, hs, hc]
  refine ⟨step1_of_marker lines hp, ?_, ?_, ?_⟩
  · rw [e2, pyInsert_eq_append _ _ _ (by omega)]
  · rw [e2]
    exact getElem?_pyInsert_self _ _ _ (by omega)
  · intro l hl
    rw [e2]
    have e4 : (pyInsert lines (idx + 1) slopeVizLine)[idx + 2]? = lines[idx + 1]? :=
      getElem?_pyInsert_succ_ge lines (idx + 1) slopeVizLine (idx + 1) (Nat.le_refl _)
    rw [e4, hl]

/-- Witness for C10 at a concrete two-line list whose soil-moisture line
follows the anchor. -/
theorem cell7_slope_offset_one_witness :
    (step2 ["change_viz = 0\n", "x soil_moisture_viz\n"] false)[0 + 1]? =
      some slopeVizLine :=
  (cell7_slope_offset_one ["change_viz = 0\n", "x soil_moisture_viz\n"] 0
    (by decide) (by decide) (by decide)).2.2.1

/-- **C8.**  The first generated notebook has exactly 8 cells in the fixed
markdown/code pattern markdown, code, code, markdown, code, code, code, code,
and the final cell's source contains the literal text `m.addLayerControl()`. -/
theorem builder_first_notebook_shape :
    cells.length = 8
    ∧ cells.map Cell.cell_type =
        ["markdown", "code", "code", "markdown", "code", "code", "code", "code"]
    ∧ (∃ c, cells[7]? = some c ∧ pyIn "m.addLayerControl()" (sourceText c.source) = true) := by
  refine ⟨rfl, rfl, ⟨_, rfl, ?_⟩⟩
  set_option maxRecDepth 4000 in decide

end GeoSafe
